import Mathlib

/-!
Verification of `src/main.py` (google-slides-exporter) against its
specification, via a shallow embedding in Lean 4.

The program drives a selenium webdriver; browser behaviour is external, so it
is modelled as an abstract `Browser` record of response functions (which URL
navigations succeed, which DOM elements are found, what text the slide-count
indicator holds, what the page title is).  Every function of `main.py` that
the claims touch is translated below, keeping the source names.
-/

/-- One raster frame: the screenshot taken while slide `idx` (0-based loop
index of `download_slides`) of the presentation at `url` is displayed.
The pixel contents are abstracted away. -/
structure Frame where
  url : String
  idx : Nat
deriving DecidableEq

/-- Observable effects of `download_slides` on the webdriver, in order. -/
inductive Event where
  | navigate (url : String)     -- driver.get(slides_url)
  | keyCtrlF5                   -- CONTROL+F5: enter presentation mode
  | capture                     -- screenshot_slide(driver)
  | keyArrowDown                -- ARROW_DOWN: advance one slide
  | keyEscape                   -- ESCAPE: leave presentation mode
deriving DecidableEq

/-- Abstract model of the webdriver plus remote pages: which navigations
succeed (`driver.get` raising vs. returning), whether the filmstrip and the
slide-count indicator elements are found at a given URL, the indicator text,
and the page title as a function of the currently-loaded page
(`none` = no page loaded yet). -/
structure Browser where
  navOk : String → Bool
  filmstripFound : String → Bool
  indicatorFound : String → Bool
  indicatorText : String → String
  pageTitle : Option String → String

/-- Embedding of Python `re.findall("\d+", s)`, accumulator form: scans the
characters, collecting every maximal run of decimal digits in order.
`acc` holds the current (reversed) digit run. -/
def reFindallDigitsAux : List Char → List Char → List (List Char)
  | [], acc => if acc.isEmpty then [] else [acc.reverse]
  | c :: cs, acc =>
    if c.isDigit then reFindallDigitsAux cs (c :: acc)
    else if acc.isEmpty then reFindallDigitsAux cs []
    else acc.reverse :: reFindallDigitsAux cs []

/-- `re.findall("\d+", s)`: the list of maximal decimal-digit runs of `s`,
leftmost first. -/
def reFindallDigits (s : String) : List (List Char) :=
  reFindallDigitsAux s.data []

/-- Python `int` applied to a non-empty string of decimal digits. -/
def natOfDigits (ds : List Char) : Nat :=
  ds.foldl (fun acc c => 10 * acc + (c.toNat - 48)) 0

/-- Embedding of `get_num_of_slides` (src/main.py:44-66).  The `try` body
finds the filmstrip, scrolls, finds the total-slide-count element and parses
`int(re.findall("\d+", total_slides.text)[0])`.  A missing element raises
`NoSuchElementException` (caught: return 0); an empty `findall` result makes
`[0]` raise `IndexError` (caught: return 0). -/
def get_num_of_slides (b : Browser) (url : String) : Int :=
  if b.filmstripFound url then
    if b.indicatorFound url then
      match reFindallDigits (b.indicatorText url) with
      | [] => 0                          -- IndexError path
      | ds :: _ => (natOfDigits ds : Int)
    else 0                               -- NoSuchElementException path
  else 0                                 -- NoSuchElementException path

/-- Embedding of `scrape_title` (src/main.py:35-41): `driver.title` of the
currently loaded page. -/
def scrape_title (b : Browser) (page : Option String) : String :=
  b.pageTitle page

/-- The body of the `for i in range(0, num_slides)` loop of `download_slides`
(src/main.py:91-96): per iteration, capture a screenshot of the current
slide, then press ARROW_DOWN.  Arguments: url, current loop index `i`,
remaining iterations.  Returns the frames appended and the events issued. -/
def slideWalk : String → Nat → Nat → List Frame × List Event
  | _, _, 0 => ([], [])
  | url, i, n + 1 =>
    let rest := slideWalk url (i + 1) n
    (⟨url, i⟩ :: rest.1, Event.capture :: Event.keyArrowDown :: rest.2)

/-- Embedding of `download_slides` (src/main.py:69-101).  `page` is the URL
currently loaded in the shared driver (`none` if no navigation succeeded
yet).  `driver.get` failing (any exception) is caught: print and return `[]`
with the driver left on its previous page.  Otherwise: count slides, enter
presentation mode (CTRL+F5), sleep, loop capture/advance `num_slides` times,
then ESCAPE.  `range(0, n)` has `n.toNat` iterations (`get_num_of_slides` is
in fact always non-negative).  Result: (frames, events, page now loaded). -/
def download_slides (b : Browser) (page : Option String) (url : String) :
    List Frame × List Event × Option String :=
  if b.navOk url then
    let n := (get_num_of_slides b url).toNat
    let walk := slideWalk url 0 n
    (walk.1, Event.navigate url :: Event.keyCtrlF5 :: (walk.2 ++ [Event.keyEscape]),
      some url)
  else
    ([], [], page)

/-- The forbidden characters of `sanitize_filename` (src/main.py:122):
`'"*\\/\'.|?:<>'`, i.e. double-quote, asterisk, backslash, slash,
single-quote (`Char.ofNat 39`), period, pipe, question mark, colon,
less-than, greater-than. -/
def forbidden_chars : List Char :=
  ['"', '*', '\\', '/', Char.ofNat 39, '.', '|', '?', ':', '<', '>']

/-- Embedding of `sanitize_filename` (src/main.py:116-125):
`''.join([x if x not in forbidden_chars else '' for x in filename])`, i.e.
keep exactly the characters not in `forbidden_chars`, in order. -/
def sanitize_filename (filename : String) : String :=
  String.mk (filename.data.filter (fun x => !(forbidden_chars.contains x)))

/-- One output document, as written by
`slide_deck[0].save(f"{title}.pdf", save_all=True, append_images=slide_deck[1:], quality=95)`
(src/main.py:173): base page `first` = `slide_deck[0]`, appended pages
`rest` = `slide_deck[1:]`. -/
structure SavedDoc where
  name : String
  first : Frame
  rest : List Frame
deriving DecidableEq

/-- Number of pages of a saved document: the base page plus the appended
images. -/
def pages (d : SavedDoc) : Nat :=
  1 + d.rest.length

/-- One iteration of the batch loop (src/main.py:169-173): download the
deck, scrape and sanitize the title of the now-current page, and save a
document only `if len(slide_deck) > 0` (the match on the deck is exactly
that guard: the save accesses `slide_deck[0]` and `slide_deck[1:]`).
`acc` = (documents written so far, page currently loaded in the driver). -/
def process_presentation (b : Browser) (acc : List SavedDoc × Option String)
    (url : String) : List SavedDoc × Option String :=
  let r := download_slides b acc.2 url
  let title := sanitize_filename (scrape_title b r.2.2)
  match r.1 with
  | [] => (acc.1, r.2.2)
  | f :: fs => (acc.1 ++ [⟨title ++ ".pdf", f, fs⟩], r.2.2)

/-- The whole batch loop `for presentation in presentations_to_download`
(src/main.py:169-173), starting from a fresh driver with no page loaded. -/
def run_batch (b : Browser) (urls : List String) :
    List SavedDoc × Option String :=
  urls.foldl (process_presentation b) ([], none)

/-- Embedding of Python `str.splitlines`, accumulator form: a line ends at
`\n`, at `\r\n` (consumed as one boundary), or at any other line-boundary
character; characters after the last boundary form a final line only if
there is at least one of them. -/
def splitlinesAux : List Char → List Char → List String
  | [], acc => if acc.isEmpty then [] else [String.mk acc.reverse]
  | '\r' :: '\n' :: cs, acc => String.mk acc.reverse :: splitlinesAux cs []
  | '\r' :: cs, acc => String.mk acc.reverse :: splitlinesAux cs []
  | '\n' :: cs, acc => String.mk acc.reverse :: splitlinesAux cs []
  | c :: cs, acc => splitlinesAux cs (c :: acc)

/-- Python `str.splitlines` restricted to the `\n`, `\r\n`, `\r` boundaries
(the file is documented as newline-delimited; the exotic Unicode boundaries
Python also recognises never occur in the claims). -/
def splitlines (s : String) : List String :=
  splitlinesAux s.data []

/-- The filesystem as seen by `open(args.slides, "r")` / `file.read()`:
`none` models an `OSError` (bad path, unreadable file). -/
structure FileSystem where
  readFile : String → Option String

/-- Embedding of the argument handling (src/main.py:156-167): start from
`[]`, append `args.url` if given, then, if `args.slides` is given, try to
read the file and extend with its `splitlines()`; on `OSError` print a
message and `parser.print_help()`, leaving the list as it was.  Returns
(presentations_to_download, whether help text was printed). -/
def resolve_presentations (fs : FileSystem) (urlArg slidesArg : Option String) :
    List String × Bool :=
  let l1 : List String := match urlArg with
    | some u => [u]
    | none => []
  match slidesArg with
  | none => (l1, false)
  | some path =>
    match fs.readFile path with
    | some content => (l1 ++ splitlines content, false)
    | none => (l1, true)

/-- The whole `__main__` run after argument parsing succeeded: resolve the
presentation list, run the batch.  Returns (documents written, help
printed). -/
def main_run (fs : FileSystem) (b : Browser) (urlArg slidesArg : Option String) :
    List SavedDoc × Bool :=
  let r := resolve_presentations fs urlArg slidesArg
  ((run_batch b r.1).1, r.2)

/-! ### Specification-side vocabulary for the theorems -/

/-- The two events of one iteration of the capture loop. -/
def isWalkEvent : Event → Bool
  | Event.capture => true
  | Event.keyArrowDown => true
  | _ => false

/-- An advance-slide key press. -/
def isAdvance : Event → Bool
  | Event.keyArrowDown => true
  | _ => false

/-- The expected capture/advance interleaving for `n` slides: a capture
followed immediately by one advance, `n` times (the advance is issued after
the last capture too). -/
def walkPattern : Nat → List Event
  | 0 => []
  | n + 1 => Event.capture :: Event.keyArrowDown :: walkPattern n

/-! ### Concrete fixtures used by witnesses and counterexamples -/

/-- A browser where everything works and the indicator reads 3 slides. -/
def browserA : Browser :=
  ⟨fun _ => true, fun _ => true, fun _ => true, fun _ => "3", fun _ => "T"⟩

/-- A browser where neither the filmstrip nor the indicator is found. -/
def browserNoElement : Browser :=
  ⟨fun _ => true, fun _ => false, fun _ => false, fun _ => "none", fun _ => "T"⟩

/-- A browser whose slide-count indicator text holds no digits. -/
def browserNoDigits : Browser :=
  ⟨fun _ => true, fun _ => true, fun _ => true, fun _ => "no digits", fun _ => "T"⟩

/-- A browser whose slide-count indicator reads "5 / 12". -/
def browser512 : Browser :=
  ⟨fun _ => true, fun _ => true, fun _ => true, fun _ => "5 / 12", fun _ => "T"⟩

/-- A browser whose slide count resolves to zero. -/
def browserZero : Browser :=
  ⟨fun _ => true, fun _ => true, fun _ => true, fun _ => "0", fun _ => "T"⟩

/-- A browser where every navigation raises. -/
def browserNoNav : Browser :=
  ⟨fun _ => false, fun _ => true, fun _ => true, fun _ => "3", fun _ => "T"⟩

/-- The mocked browser of the end-to-end scenario: counts [3, 0] and page
titles ["Deck A", "Deck B??"] for the two entries "u1", "u2". -/
def browserScenario : Browser :=
  ⟨fun _ => true, fun _ => true, fun _ => true,
   fun u => if u = "u1" then "3" else "0",
   fun p => if p = some "u1" then "Deck A" else "Deck B??"⟩

/-- A filesystem on which every open raises `OSError`. -/
def fsFail : FileSystem :=
  ⟨fun _ => none⟩

/-- A filesystem whose files all contain two URLs separated by a blank
line. -/
def fsBlank : FileSystem :=
  ⟨fun _ => some "u1\n\nu2"⟩

/-! ### Helper lemmas -/

theorem filter_idem (p : Char → Bool) (l : List Char) :
    (l.filter p).filter p = l.filter p := by
  induction l with
  | nil => rfl
  | cons c cs ih =>
    cases h : p c <;> simp [List.filter_cons, h, ih]

theorem mk_data_eq (s : String) : String.mk s.data = s := by
  cases s
  rfl

/-- C2: for every input string `s`, `sanitize_filename s` contains none of
the forbidden characters; the output is a subsequence of the input, namely
exactly the non-forbidden characters of `s` in their original order. -/
theorem sanitize_filename_no_forbidden (s : String) :
    (∀ c ∈ (sanitize_filename s).data, ¬ c ∈ forbidden_chars) ∧
    List.Sublist (sanitize_filename s).data s.data ∧
    (sanitize_filename s).data
      = s.data.filter (fun x => !(forbidden_chars.contains x)) := by
  refine ⟨?_, ?_, rfl⟩
  · intro c hc
    have h := List.of_mem_filter (p := fun x => !(forbidden_chars.contains x)) hc
    simpa using h
  · exact List.filter_sublist s.data

theorem sanitize_filename_no_forbidden_witness :
    Char.ofNat 97 ∈ (sanitize_filename "a.b").data ∧
    ¬ Char.ofNat 97 ∈ forbidden_chars :=
  ⟨by decide,
   (sanitize_filename_no_forbidden "a.b").1 (Char.ofNat 97) (by decide)⟩

/-- C6: `sanitize_filename` is idempotent, and on a string containing no
forbidden character it is the identity. -/
theorem sanitize_filename_idempotent (s : String) :
    sanitize_filename (sanitize_filename s) = sanitize_filename s ∧
    ((∀ c ∈ s.data, ¬ c ∈ forbidden_chars) → sanitize_filename s = s) := by
  constructor
  · show String.mk _ = String.mk _
    exact congrArg String.mk
      (filter_idem (fun x => !(forbidden_chars.contains x)) s.data)
  · intro h
    have hf : s.data.filter (fun x => !(forbidden_chars.contains x)) = s.data := by
      apply List.filter_eq_self.mpr
      intro a ha
      simpa using h a ha
    calc sanitize_filename s
        = String.mk (s.data.filter (fun x => !(forbidden_chars.contains x))) := rfl
      _ = String.mk s.data := congrArg String.mk hf
      _ = s := mk_data_eq s

theorem sanitize_filename_idempotent_witness :
    sanitize_filename (sanitize_filename "ab") = sanitize_filename "ab" ∧
    sanitize_filename "ab" = "ab" := by
  have h := sanitize_filename_idempotent "ab"
  exact ⟨h.1, h.2 (by decide)⟩

theorem slideWalk_events (url : String) :
    ∀ (n i : Nat), (slideWalk url i n).2 = walkPattern n := by
  intro n
  induction n with
  | zero => intro i; rfl
  | succ k ih => intro i; simp [slideWalk, walkPattern, ih]

theorem slideWalk_frames_length (url : String) :
    ∀ (n i : Nat), (slideWalk url i n).1.length = n := by
  intro n
  induction n with
  | zero => intro i; rfl
  | succ k ih => intro i; simp [slideWalk, ih]

theorem walkPattern_filter_walk (n : Nat) :
    (walkPattern n).filter isWalkEvent = walkPattern n := by
  induction n with
  | zero => rfl
  | succ k ih => simp [walkPattern, List.filter_cons, isWalkEvent, ih]

theorem walkPattern_advance_length (n : Nat) :
    ((walkPattern n).filter isAdvance).length = n := by
  induction n with
  | zero => rfl
  | succ k ih => simp [walkPattern, List.filter_cons, isAdvance, ih]

/-- C1: when navigation succeeds and the slide counter returns N, the
capture loop of `download_slides` produces exactly N frames and issues
exactly N advance-slide key presses; the walk events are exactly N
capture/advance pairs, one advance immediately after each capture (also
after the last one); N = 0 yields an empty frame list. -/
theorem download_slides_capture_advance (b : Browser) (page : Option String)
    (url : String) (h : b.navOk url = true) :
    (download_slides b page url).1.length = (get_num_of_slides b url).toNat ∧
    (download_slides b page url).2.1.filter isWalkEvent
      = walkPattern (get_num_of_slides b url).toNat ∧
    ((download_slides b page url).2.1.filter isAdvance).length
      = (get_num_of_slides b url).toNat ∧
    (get_num_of_slides b url = 0 → (download_slides b page url).1 = []) := by
  refine ⟨?_, ?_, ?_, ?_⟩
  · simp [download_slides, h, slideWalk_frames_length]
  · simp [download_slides, h, List.filter_cons, List.filter_append, isWalkEvent,
      slideWalk_events, walkPattern_filter_walk]
  · simp [download_slides, h, List.filter_cons, List.filter_append, isAdvance,
      slideWalk_events, walkPattern_advance_length]
  · intro h0
    simp [download_slides, h, h0, slideWalk]

theorem download_slides_capture_advance_witness :
    (download_slides browserA none "u").1.length = 3 ∧
    (download_slides browserA none "u").2.1.filter isWalkEvent = walkPattern 3 ∧
    ((download_slides browserA none "u").2.1.filter isAdvance).length = 3 := by
  have h := download_slides_capture_advance browserA none "u" rfl
  have h3 : (get_num_of_slides browserA "u").toNat = 3 := by decide
  exact ⟨h3 ▸ h.1, h3 ▸ h.2.1, h3 ▸ h.2.2.1⟩

theorem reFindallDigitsAux_no_digits (cs : List Char)
    (h : ∀ c ∈ cs, c.isDigit = false) : reFindallDigitsAux cs [] = [] := by
  induction cs with
  | nil => rfl
  | cons c cs ih =>
    have hc := h c (List.mem_cons_self c cs)
    simp only [reFindallDigitsAux, hc, Bool.false_eq_true, if_false,
      List.isEmpty_nil, if_true]
    exact ih (fun x hx => h x (List.mem_cons_of_mem c hx))

theorem get_num_of_slides_nonneg (b : Browser) (url : String) :
    0 ≤ get_num_of_slides b url := by
  unfold get_num_of_slides
  split
  · split
    · cases reFindallDigits (b.indicatorText url) with
      | nil => exact le_refl 0
      | cons ds tl => exact Int.natCast_nonneg (natOfDigits ds)
    · exact le_refl 0
  · exact le_refl 0

/-- C4: `get_num_of_slides` returns 0 (and, being total here, does not
raise) when the filmstrip or the slide-count indicator element is not found,
or when the indicator text contains no decimal digits; in every case its
result is a non-negative integer. -/
theorem get_num_of_slides_error_cases (b : Browser) (url : String) :
    ((b.filmstripFound url = false ∨ b.indicatorFound url = false) →
      get_num_of_slides b url = 0) ∧
    ((∀ c ∈ (b.indicatorText url).data, c.isDigit = false) →
      get_num_of_slides b url = 0) ∧
    0 ≤ get_num_of_slides b url := by
  refine ⟨?_, ?_, get_num_of_slides_nonneg b url⟩
  · rintro (h | h) <;> simp [get_num_of_slides, h]
  · intro h
    have hz : reFindallDigits (b.indicatorText url) = [] :=
      reFindallDigitsAux_no_digits _ h
    unfold get_num_of_slides
    rw [hz]
    split <;> simp

theorem get_num_of_slides_error_cases_witness :
    get_num_of_slides browserNoElement "u" = 0 ∧
    get_num_of_slides browserNoDigits "u" = 0 ∧
    0 ≤ get_num_of_slides browserNoDigits "u" :=
  ⟨(get_num_of_slides_error_cases browserNoElement "u").1 (Or.inl rfl),
   (get_num_of_slides_error_cases browserNoDigits "u").2.1 (by decide),
   (get_num_of_slides_error_cases browserNoDigits "u").2.2⟩

theorem reFindallDigitsAux_skip (pre : List Char)
    (h : ∀ c ∈ pre, c.isDigit = false) :
    ∀ rest, reFindallDigitsAux (pre ++ rest) [] = reFindallDigitsAux rest [] := by
  induction pre with
  | nil => intro rest; rfl
  | cons c cs ih =>
    intro rest
    have hc := h c (List.mem_cons_self c cs)
    have step : reFindallDigitsAux (c :: (cs ++ rest)) []
        = reFindallDigitsAux (cs ++ rest) [] := by
      simp only [reFindallDigitsAux, hc, Bool.false_eq_true, if_false,
        List.isEmpty_nil, if_true]
    simpa [step] using ih (fun x hx => h x (List.mem_cons_of_mem c hx)) rest

theorem reFindallDigitsAux_run (run : List Char)
    (h : ∀ c ∈ run, c.isDigit = true) :
    ∀ (post acc : List Char), reFindallDigitsAux (run ++ post) acc
      = reFindallDigitsAux post (run.reverse ++ acc) := by
  induction run with
  | nil => intro post acc; simp
  | cons c cs ih =>
    intro post acc
    have hc := h c (List.mem_cons_self c cs)
    have step : reFindallDigitsAux (c :: (cs ++ post)) acc
        = reFindallDigitsAux (cs ++ post) (c :: acc) := by
      simp only [reFindallDigitsAux, hc, if_true]
    rw [List.cons_append, step,
      ih (fun x hx => h x (List.mem_cons_of_mem c hx)) post (c :: acc)]
    simp

theorem reFindallDigitsAux_flush (post acc : List Char) (hacc : acc ≠ [])
    (hpost : ∀ c, post.head? = some c → c.isDigit = false) :
    ∃ tl, reFindallDigitsAux post acc = acc.reverse :: tl := by
  have hne : acc.isEmpty = false := by
    cases acc with
    | nil => exact absurd rfl hacc
    | cons a as => rfl
  cases post with
  | nil =>
    refine ⟨[], ?_⟩
    simp [reFindallDigitsAux, hne]
  | cons c cs =>
    have hc : c.isDigit = false := hpost c rfl
    refine ⟨reFindallDigitsAux cs [], ?_⟩
    simp [reFindallDigitsAux, hc, hne]

/-- C7: the slide counter takes the leftmost maximal run of decimal digits
of the indicator text.  If the text splits as `pre ++ run ++ post` with no
digit in `pre`, `run` a non-empty run of digits, and `post` not starting
with a digit, then `get_num_of_slides` returns the value of `run` (so for
text "5 / 12" it returns 5, see the witness). -/
theorem get_num_of_slides_leftmost_run (b : Browser) (url : String)
    (hf : b.filmstripFound url = true) (hi : b.indicatorFound url = true)
    (pre run post : List Char)
    (hsplit : (b.indicatorText url).data = pre ++ (run ++ post))
    (hpre : ∀ c ∈ pre, c.isDigit = false)
    (hne : run ≠ [])
    (hrun : ∀ c ∈ run, c.isDigit = true)
    (hpost : ∀ c, post.head? = some c → c.isDigit = false) :
    get_num_of_slides b url = (natOfDigits run : Int) := by
  have h1 : reFindallDigits (b.indicatorText url)
      = reFindallDigitsAux (run ++ post) [] := by
    rw [reFindallDigits, hsplit, reFindallDigitsAux_skip pre hpre]
  have h2 : reFindallDigitsAux (run ++ post) []
      = reFindallDigitsAux post run.reverse := by
    simpa using reFindallDigitsAux_run run hrun post []
  have hrev : run.reverse ≠ [] := by
    simpa using hne
  obtain ⟨tl, h3⟩ := reFindallDigitsAux_flush post run.reverse hrev hpost
  have hall : reFindallDigits (b.indicatorText url) = run :: tl := by
    rw [h1, h2, h3, List.reverse_reverse]
  simp [get_num_of_slides, hf, hi, hall]

theorem get_num_of_slides_leftmost_run_witness :
    get_num_of_slides browser512 "u" = 5 := by
  have h := get_num_of_slides_leftmost_run browser512 "u" rfl rfl
    [] [Char.ofNat 53] (String.data " / 12")
    (by decide) (by decide) (by decide) (by decide)
    (by
      intro c hc
      have hc2 : some (Char.ofNat 32) = some c := hc
      obtain rfl := Option.some_inj.mp hc2
      decide)
  exact h.trans (by decide)

theorem download_frames_empty (b : Browser) (page : Option String)
    (url : String) (h : b.navOk url = false ∨ get_num_of_slides b url = 0) :
    (download_slides b page url).1 = [] := by
  rcases h with h | h
  · simp [download_slides, h]
  · cases hn : b.navOk url
    · simp [download_slides, hn]
    · simp [download_slides, hn, h, slideWalk]

theorem process_presentation_empty_deck (b : Browser)
    (acc : List SavedDoc × Option String) (url : String)
    (h : (download_slides b acc.2 url).1 = []) :
    (process_presentation b acc url).1 = acc.1 := by
  simp only [process_presentation]
  rw [h]

theorem process_presentation_cons (b : Browser)
    (acc : List SavedDoc × Option String) (url : String) (f : Frame)
    (fs : List Frame) (h : (download_slides b acc.2 url).1 = f :: fs) :
    (process_presentation b acc url).1 = acc.1 ++
      [⟨sanitize_filename
          (scrape_title b (download_slides b acc.2 url).2.2) ++ ".pdf", f, fs⟩] := by
  simp only [process_presentation]
  rw [h]

/-- C3: when the deck is empty (slide count resolved to zero or navigation
failed) the batch step writes no document — and a document is appended
exactly when at least one frame was captured, so `slide_deck[0]` is never
accessed on an empty deck. -/
theorem orchestrator_skips_empty_deck (b : Browser)
    (acc : List SavedDoc × Option String) (url : String) :
    ((b.navOk url = false ∨ get_num_of_slides b url = 0) →
      (download_slides b acc.2 url).1 = [] ∧
      (process_presentation b acc url).1 = acc.1) ∧
    ((∃ d, (process_presentation b acc url).1 = acc.1 ++ [d]) ↔
      (download_slides b acc.2 url).1 ≠ []) := by
  constructor
  · intro h
    have he : (download_slides b acc.2 url).1 = [] :=
      download_frames_empty b acc.2 url h
    exact ⟨he, process_presentation_empty_deck b acc url he⟩
  · constructor
    · rintro ⟨d, hd⟩ he
      rw [process_presentation_empty_deck b acc url he] at hd
      exact absurd hd (by simp)
    · intro hne
      cases hdeck : (download_slides b acc.2 url).1 with
      | nil => exact absurd hdeck hne
      | cons f fs => exact ⟨_, process_presentation_cons b acc url f fs hdeck⟩

theorem orchestrator_skips_empty_deck_witness :
    (download_slides browserZero none "u").1 = [] ∧
    (process_presentation browserZero ([], none) "u").1 = [] := by
  have h := (orchestrator_skips_empty_deck browserZero ([], none) "u").1
    (Or.inr (by decide))
  exact ⟨h.1, h.2⟩

theorem process_presentation_nav_fail (b : Browser)
    (acc : List SavedDoc × Option String) (url : String)
    (h : b.navOk url = false) : process_presentation b acc url = acc := by
  obtain ⟨docs, page⟩ := acc
  simp [process_presentation, download_slides, h]

/-- C8: a failing navigation is caught inside `download_slides`: the result
is the empty deck, the driver stays on its previous page, the batch step
leaves the accumulator untouched, and the batch loop simply continues with
the remaining presentations. -/
theorem navigation_failure_recovered (b : Browser) (page : Option String)
    (url : String) (h : b.navOk url = false) :
    download_slides b page url = ([], [], page) ∧
    (∀ acc : List SavedDoc × Option String,
      process_presentation b acc url = acc) ∧
    (∀ (acc : List SavedDoc × Option String) (urls : List String),
      List.foldl (process_presentation b) acc (url :: urls)
        = List.foldl (process_presentation b) acc urls) := by
  refine ⟨by simp [download_slides, h],
    fun acc => process_presentation_nav_fail b acc url h, ?_⟩
  intro acc urls
  rw [List.foldl_cons, process_presentation_nav_fail b acc url h]

theorem navigation_failure_recovered_witness :
    download_slides browserNoNav none "u" = ([], [], none) ∧
    process_presentation browserNoNav ([], none) "u" = ([], none) := by
  have h := navigation_failure_recovered browserNoNav none "u" rfl
  exact ⟨h.1, h.2.1 ([], none)⟩

/-- C9: when opening the `--slides` file raises `OSError`, the error is
caught, help text is printed, and the batch continues with the entries
already queued: the `--url` entry if given, else no entries and hence no
output documents. -/
theorem slides_file_error_recovered (fs : FileSystem) (b : Browser)
    (urlArg : Option String) (path : String)
    (h : fs.readFile path = none) :
    resolve_presentations fs urlArg (some path)
      = ((match urlArg with | some u => [u] | none => []), true) ∧
    (main_run fs b urlArg (some path)).2 = true ∧
    (urlArg = none → main_run fs b urlArg (some path) = ([], true)) := by
  have h1 : resolve_presentations fs urlArg (some path)
      = ((match urlArg with | some u => [u] | none => []), true) := by
    simp [resolve_presentations, h]
  refine ⟨h1, ?_, ?_⟩
  · simp [main_run, h1]
  · rintro rfl
    simp [main_run, h1, run_batch]

theorem slides_file_error_recovered_witness :
    resolve_presentations fsFail (some "u") (some "bad") = (["u"], true) ∧
    main_run fsFail browserNoNav none (some "bad") = ([], true) := by
  have h1 := slides_file_error_recovered fsFail browserNoNav (some "u") "bad" rfl
  have h2 := slides_file_error_recovered fsFail browserNoNav none "bad" rfl
  exact ⟨h1.1, h2.2.2 rfl⟩

/-- C10: blank lines of the `--slides` file are not skipped: the resolved
presentation list is exactly the optional `--url` entry followed by every
`splitlines` line of the file in order (empty lines included), and such an
empty-string reference is still processed by the batch step — a failing
navigation on it just leaves the accumulator unchanged (empty deck). -/
theorem blank_lines_not_skipped (fs : FileSystem) (urlArg : Option String)
    (path content : String) (h : fs.readFile path = some content) :
    (resolve_presentations fs urlArg (some path)).1
      = (match urlArg with | some u => [u] | none => []) ++ splitlines content ∧
    (∀ (b : Browser) (acc : List SavedDoc × Option String),
      b.navOk "" = false → process_presentation b acc "" = acc) := by
  constructor
  · simp [resolve_presentations, h]
  · intro b acc hb
    exact process_presentation_nav_fail b acc "" hb

theorem blank_lines_not_skipped_witness :
    (resolve_presentations fsBlank none (some "f")).1 = ["u1", "", "u2"] ∧
    "" ∈ (resolve_presentations fsBlank none (some "f")).1 ∧
    process_presentation browserNoNav ([], none) "" = ([], none) := by
  have h := blank_lines_not_skipped fsBlank none "f" "u1\n\nu2" rfl
  refine ⟨?_, ?_, h.2 browserNoNav ([], none) rfl⟩
  · rw [h.1]
    decide
  · rw [h.1]
    decide

/-- C5 counterexample: in the end-to-end scenario (counts [3, 0], titles
["Deck A", "Deck B??"]) the single written document is named
"Deck A.pdf", not "DeckA.pdf": `sanitize_filename` removes only the
forbidden characters and keeps the space of "Deck A". -/
theorem batch_scenario_counterexample :
    (run_batch browserScenario ["u1", "u2"]).1.map SavedDoc.name
      ≠ ["DeckA.pdf"] ∧
    (run_batch browserScenario ["u1", "u2"]).1.map SavedDoc.name
      = ["Deck A.pdf"] := by
  decide

/-- C5 (amended): in the end-to-end scenario exactly one output document is
written; it is named "Deck A.pdf" (the sanitized title, the space kept),
contains 3 pages, stems from the first entry, and no document is written
for the second entry. -/
theorem batch_scenario_one_doc :
    (run_batch browserScenario ["u1", "u2"]).1.length = 1 ∧
    (run_batch browserScenario ["u1", "u2"]).1.map SavedDoc.name
      = ["Deck A.pdf"] ∧
    (run_batch browserScenario ["u1", "u2"]).1.map pages = [3] ∧
    (run_batch browserScenario ["u1", "u2"]).1.map SavedDoc.first
      = [Frame.mk "u1" 0] := by
  decide
